import Mathlib

/-!
Verification of the patch-integration pipeline of the github-app repository.

The pipeline under study lives in `src/subscriptions.js`:
`onPatchGenerationResult` parses an incoming patch-result message, routes it
either to `generatePullRequest` (branch creation, per-file content update,
pull-request creation) or to `makeComment` (diagnostic comment), and then
acknowledges the message.  An earlier evolution of the handler
(`src/unnamed/part_002`, first variant) processes a unified diff per file
patch and is modelled separately where a claim cites it.

Text is modelled as `List Char` (the `Str` abbreviation below); the external
GitHub/octokit API is modelled by a `World` of oracle answers, and every
remote call the code issues is recorded in a trace of `Op` values.
-/

namespace GithubApp

abbrev Str := List Char

/-- The backtick character, singled out so character literals stay plain. -/
def backtickChar : Char := Char.ofNat 96

/-- `escapeMarkdown` from `src/subscriptions.js`: prefixes each of the
characters underscore, asterisk and backtick with a backslash. -/
def escapeMarkdown (text : Str) : Str :=
  (text.map (fun c =>
    if c = '_' ∨ c = '*' ∨ c = backtickChar then ['\\', c] else [c])).flatten

/-- `TaskInfo` as carried in the `taskInfo` field of a patch-result message
consumed by `src/subscriptions.js`. -/
structure TaskInfo where
  repo_owner : Str
  repo_name : Str
  issue_number : Nat
  issue_title : Str
  installation_id : Nat
deriving DecidableEq, Repr

/-- One entry of `lastPatchResult.patchedFiles` as read by
`generatePullRequest` in `src/subscriptions.js`. -/
structure PatchedFile where
  sourceFilePath : Str
  sourceFileName : Str
  targetFilePath : Str
  targetFileContent : Str
deriving DecidableEq, Repr

/-- The `lastPatchResult` field of an incoming patch-result message. -/
structure LastPatchResult where
  unifiedDiff : Str
  patchedFiles : List PatchedFile
  error : Str
deriving DecidableEq, Repr

/-- A parsed patch-result message as consumed by `onPatchGenerationResult`
in `src/subscriptions.js`. -/
structure PatchResult where
  taskInfo : TaskInfo
  lastPatchResult : LastPatchResult
deriving DecidableEq, Repr

/-- `formatPatchResultMessage` from `src/subscriptions.js`: the template
literal rendering the unified diff and the error, both markdown-escaped.
The line breaks and the two-space indentation are those of the source's
template literal. -/
def formatPatchResultMessage (patchResult : PatchResult) : Str :=
  "Unified Diff:\n  ```\n  ".data ++
    (escapeMarkdown patchResult.lastPatchResult.unifiedDiff ++
      ("\n  ```\n\n  Error Message:\n  ```\n  ".data ++
        (escapeMarkdown patchResult.lastPatchResult.error ++ "\n  ```\n  ".data)))

/-- The decision taken by the `if` in `onPatchGenerationResult`
(`src/subscriptions.js`): generate a pull request, or post the diagnostic
comment body produced by `formatPatchResultMessage`. -/
inductive Action where
  | generatePullRequest
  | reportFailure (body : Str)
deriving DecidableEq, Repr

/-- The routing condition of `onPatchGenerationResult` in
`src/subscriptions.js`:
`patchResult.lastPatchResult.patchedFiles.length !== 0 &&
 patchResult.lastPatchResult.error.length === 0` selects the pull-request
path, anything else posts `formatPatchResultMessage patchResult`. -/
def onPatchGenerationAction (patchResult : PatchResult) : Action :=
  if patchResult.lastPatchResult.patchedFiles.length ≠ 0 ∧
      patchResult.lastPatchResult.error.length = 0 then
    Action.generatePullRequest
  else
    Action.reportFailure (formatPatchResultMessage patchResult)

/-- Oracle answers of the external GitHub API for one pipeline run.
`getContent` answers with the pair (decoded file content, blob sha) or
`none` for a failed fetch; `writeOk` tells whether a
`createOrUpdateFileContents` call presenting a given path and sha is
accepted (a stale sha makes it `false`). -/
structure World where
  getRefSha : Option Str
  createRefOk : Bool
  getContent : Str → Option (Str × Str)
  writeOk : Str → Str → Bool
  pullsCreateOk : Bool
  commentOk : Bool

/-- One remote call issued by the pipeline, as recorded in a run trace.
`createOrUpdateFile` records the decoded content (the base64 transport
encoding of the source is not modelled) and the branch argument, which
`src/unnamed/part_002` (first variant) omits (`none`). -/
inductive Op where
  | getRef (ref : Str)
  | createRef (ref : Str) (sha : Str)
  | getContent (path : Str) (ref : Str)
  | createOrUpdateFile (path : Str) (content : Str) (sha : Str) (branch : Option Str)
  | pullsCreate (head : Str) (base : Str)
  | createComment (issueNumber : Nat) (body : Str)
  | logNewFile (oldFileName : Str) (newFileName : Str)
deriving DecidableEq, Repr

def isPullsCreateOp : Op → Bool
  | Op.pullsCreate _ _ => true
  | _ => false

def isCreateCommentOp : Op → Bool
  | Op.createComment _ _ => true
  | _ => false

def isCreateRefOp : Op → Bool
  | Op.createRef _ _ => true
  | _ => false

def isWriteOp : Op → Bool
  | Op.createOrUpdateFile _ _ _ _ => true
  | _ => false

def isLogNewFileOp : Op → Bool
  | Op.logNewFile _ _ => true
  | _ => false

def isGetContentOpFor (p : Str) : Op → Bool
  | Op.getContent q _ => decide (q = p)
  | _ => false

def isWriteOpFor (p : Str) : Op → Bool
  | Op.createOrUpdateFile q _ _ _ => decide (q = p)
  | _ => false

/-- JavaScript string interpolation of an `Error` value renders as
`Error: <message>`. -/
def jsErrorString (msg : Str) : Str := "Error: ".data ++ msg

/-- The message of the error thrown when `getContent` fails for a file in
`generatePullRequest` (`src/subscriptions.js`); the transport-level error
text is opaque and stands in as `HttpError`. -/
def getContentErrorMsg (f : PatchedFile) : Str :=
  "Received error while getting content for ".data ++
    (f.sourceFileName ++ ". Error: HttpError".data)

/-- The message of the error thrown by the trailing `.catch` of a file's
update chain in `generatePullRequest` (`src/subscriptions.js`).  The
template literal starts with a newline and six spaces of indentation. -/
def updateFileErrorMsg (f : PatchedFile) (inner : Str) : Str :=
  "\n      Received error while updating ".data ++
    (f.sourceFilePath ++ (" to ".data ++
      (f.targetFilePath ++ (". Error: ".data ++ inner))))

/-- The new branch name built in `generatePullRequest`
(`src/subscriptions.js`): the template
`feature-<issue_number>-<uuidv4()>`, with the freshly generated unique
token passed in explicitly. -/
def newBranchName (issueNumber : Nat) (token : Str) : Str :=
  "feature-".data ++ ((Nat.repr issueNumber).data ++ ("-".data ++ token))

/-- Whether file `f`'s fetch-then-write chain fails in world `w`: either the
content fetch fails, or the conditional write presenting the fetched blob
sha is rejected. -/
def fileWriteFails (w : World) (f : PatchedFile) : Bool :=
  match w.getContent f.sourceFilePath with
  | none => true
  | some (_, sha) => !(w.writeOk f.sourceFilePath sha)

/-- The error a failing file chain rejects with (see `updateFile`). -/
def fileFailMsg (w : World) (f : PatchedFile) : Str :=
  match w.getContent f.sourceFilePath with
  | none => updateFileErrorMsg f (jsErrorString (getContentErrorMsg f))
  | some _ => updateFileErrorMsg f "HttpError".data

/-- One element of `fileUpdatePromises` in `generatePullRequest`
(`src/subscriptions.js`): fetch the file's current content and blob sha at
the base commit, then write `targetFileContent` to the new branch
conditioned on that sha.  The result is the settled outcome of the chain
together with the remote calls it issued (a rejected write call is still a
call that was issued). -/
def updateFile (w : World) (baseBranchSha branch : Str) (f : PatchedFile) :
    Except Str Unit × List Op :=
  match w.getContent f.sourceFilePath with
  | none =>
      (Except.error (updateFileErrorMsg f (jsErrorString (getContentErrorMsg f))),
       [Op.getContent f.sourceFilePath baseBranchSha])
  | some (_, sha) =>
      ((if w.writeOk f.sourceFilePath sha then Except.ok ()
        else Except.error (updateFileErrorMsg f "HttpError".data)),
       [Op.getContent f.sourceFilePath baseBranchSha,
        Op.createOrUpdateFile f.sourceFilePath f.targetFileContent sha (some branch)])

/-- The error `Promise.all(fileUpdatePromises)` rejects with: the error of a
failing element.  `Promise.all` rejects with the first rejection to settle;
the model takes the first failing element in list order, which is the only
failing element everywhere this value is inspected below. -/
def firstError : List (Except Str Unit × List Op) → Option Str
  | [] => none
  | (Except.error e, _) :: _ => some e
  | (Except.ok _, _) :: rest => firstError rest

/-- Whether a settled outcome is a success. -/
def resultIsOk : Except Str Unit → Bool
  | Except.ok _ => true
  | Except.error _ => false

/-- `generatePullRequest` from `src/subscriptions.js`: resolve the base
branch head, create the new branch there, fan out the per-file
fetch-and-write chains, and create the pull request only when
`Promise.all` resolved.  All per-file chains are dispatched before the
join, so every chain's remote calls appear in the trace even when another
chain failed. -/
def generatePullRequest (w : World) (patchResult : PatchResult) (token : Str) :
    Except Str Unit × List Op :=
  match w.getRefSha with
  | none =>
      (Except.error "Received error while getting the ref for \"heads/main\": HttpError".data,
       [Op.getRef "heads/main".data])
  | some baseBranchSha =>
      let branch := newBranchName patchResult.taskInfo.issue_number token
      if w.createRefOk then
        let results := patchResult.lastPatchResult.patchedFiles.map
          (updateFile w baseBranchSha branch)
        let fileOps := (results.map Prod.snd).flatten
        let ops := Op.getRef "heads/main".data ::
          Op.createRef ("refs/heads/".data ++ branch) baseBranchSha :: fileOps
        match firstError results with
        | some e => (Except.error e, ops)
        | none =>
            if w.pullsCreateOk then
              (Except.ok (), ops ++ [Op.pullsCreate branch "main".data])
            else
              (Except.error "Received error while creating a pull request: HttpError".data,
               ops ++ [Op.pullsCreate branch "main".data])
      else
        (Except.error ("Received error while creating a new branch ".data ++
           (branch ++ ". Error: HttpError".data)),
         [Op.getRef "heads/main".data,
          Op.createRef ("refs/heads/".data ++ branch) baseBranchSha])

/-- `makeComment` from `src/subscriptions.js`: a single
`issues.createComment` call; a failure is wrapped and rethrown, never
retried. -/
def makeComment (w : World) (issueNumber : Nat) (body : Str) :
    Except Str Unit × List Op :=
  if w.commentOk then
    (Except.ok (), [Op.createComment issueNumber body])
  else
    (Except.error "Received error while posting a comment to the issue. Error: HttpError".data,
     [Op.createComment issueNumber body])

/-- The outcome of one invocation of the message handler
`onPatchGenerationResult` (`src/subscriptions.js`).  `spawnedResult` and
`spawnedOps` describe the promise the handler starts without awaiting it
(pull-request generation or diagnostic comment); `ackCount` counts the
`message.ack()` calls the handler itself performs. -/
structure HandlerRun where
  spawnedResult : Except Str Unit
  spawnedOps : List Op
  ackCount : Nat

/-- `onPatchGenerationResult` from `src/subscriptions.js`, after JSON
parsing succeeded: route by `onPatchGenerationAction`, start the chosen
work without awaiting it, and acknowledge the message.  `message.ack()` is
the handler's final statement and runs once regardless of how the spawned
promise later settles. -/
def onPatchGenerationResult (w : World) (patchResult : PatchResult) (token : Str) :
    HandlerRun :=
  let spawned :=
    match onPatchGenerationAction patchResult with
    | Action.generatePullRequest => generatePullRequest w patchResult token
    | Action.reportFailure body =>
        makeComment w patchResult.taskInfo.issue_number body
  { spawnedResult := spawned.1, spawnedOps := spawned.2, ackCount := 1 }

/-- The full handler including the `JSON.parse` step: a message that does
not parse throws before `message.ack()` is reached, so nothing is spawned
and nothing is acknowledged. -/
def handleMessage (w : World) (parsed : Option PatchResult) (token : Str) :
    HandlerRun :=
  match parsed with
  | none =>
      { spawnedResult := Except.error "SyntaxError: JSON.parse".data,
        spawnedOps := [], ackCount := 0 }
  | some patchResult => onPatchGenerationResult w patchResult token

/-- One line of a hunk: context, added or removed, with its text. -/
inductive DiffLine where
  | context (text : Str)
  | added (text : Str)
  | removed (text : Str)
deriving DecidableEq, Repr

/-- One hunk of a per-file patch: the starting lines recorded in its
`@@ -old,+new @@` header and its ordered line sequence. -/
structure Hunk where
  oldStart : Nat
  newStart : Nat
  lines : List DiffLine
deriving DecidableEq, Repr

/-- One per-file section of a parsed unified diff, in the shape the `diff`
library hands to `src/unnamed/part_002`. -/
structure FilePatch where
  oldFileName : Str
  newFileName : Str
  hunks : List Hunk
deriving DecidableEq, Repr

def splitLines (s : Str) : List Str := s.splitOn '\n'

def joinLines (lines : List Str) : Str := List.intercalate ['\n'] lines

def parseNat (s : Str) : Nat :=
  s.foldl (fun acc c => if c.isDigit then acc * 10 + (c.toNat - 48) else acc) 0

/-- Reads the two starting line numbers out of a `@@ -o,a +n,b @@` header. -/
def parseHunkHeader (l : Str) : Nat × Nat :=
  let afterMinus := (l.dropWhile (fun c => c ≠ '-')).drop 1
  let afterPlus := (l.dropWhile (fun c => c ≠ '+')).drop 1
  (parseNat (afterMinus.takeWhile Char.isDigit),
   parseNat (afterPlus.takeWhile Char.isDigit))

/-- Classifies one body line of a hunk by its leading character. -/
def classifyLine (l : Str) : Option DiffLine :=
  match l with
  | [] => none
  | c :: rest =>
      if c = '+' then some (DiffLine.added rest)
      else if c = '-' then some (DiffLine.removed rest)
      else if c = ' ' then some (DiffLine.context rest)
      else none

/-- Splits one file section's body into hunks at its `@@` headers.  The
fuel argument only bounds recursion depth; each step consumes at least one
line, so `length + 1` fuel always suffices. -/
def parseHunksAux : Nat → List Str → List Hunk
  | 0, _ => []
  | _ + 1, [] => []
  | fuel + 1, l :: rest =>
      if "@@".data.isPrefixOf l then
        let body := rest.takeWhile (fun x => !("@@".data.isPrefixOf x))
        let remaining := rest.dropWhile (fun x => !("@@".data.isPrefixOf x))
        { oldStart := (parseHunkHeader l).1, newStart := (parseHunkHeader l).2,
          lines := body.filterMap classifyLine } :: parseHunksAux fuel remaining
      else parseHunksAux fuel rest

/-- Splits the diff's lines into per-file sections at their `--- `/`+++ `
header pairs, dropping the conventional four-character `--- `/`+++ `
prefixes from the recorded file names. -/
def parseLinesAux : Nat → List Str → List FilePatch
  | 0, _ => []
  | _ + 1, [] => []
  | fuel + 1, l :: rest =>
      if "--- ".data.isPrefixOf l then
        match rest with
        | [] => []
        | l2 :: rest2 =>
            if "+++ ".data.isPrefixOf l2 then
              let body := rest2.takeWhile (fun x => !("--- ".data.isPrefixOf x))
              let remaining := rest2.dropWhile (fun x => !("--- ".data.isPrefixOf x))
              { oldFileName := l.drop 4, newFileName := l2.drop 4,
                hunks := parseHunksAux (body.length + 1) body } ::
                parseLinesAux fuel remaining
            else parseLinesAux fuel rest
      else parseLinesAux fuel rest

/-- Modelled from the spec: the Diff Parser (§4.1), standing in for the
`diff` library's `parsePatch`, which is an external dependency and not
under `src/`.  It turns unified-diff text into an ordered sequence of
per-file patches, each section's header lines yielding
`oldFileName`/`newFileName` and each `@@` block one hunk. -/
def parsePatch (diffText : Str) : List FilePatch :=
  let lines := splitLines diffText
  parseLinesAux (lines.length + 1) lines

/-- The added lines of a hunk, in order. -/
def addedLines (h : Hunk) : List Str :=
  h.lines.filterMap (fun l =>
    match l with
    | DiffLine.added t => some t
    | _ => none)

/-- Consumes a hunk's line sequence against the current content lines,
matching context and removed lines exactly. -/
def applyDiffLines : List Str → List DiffLine → Option (List Str)
  | rest, [] => some rest
  | rest, DiffLine.added a :: ls => (applyDiffLines rest ls).map (fun t => a :: t)
  | [], DiffLine.context _ :: _ => none
  | r :: rest, DiffLine.context c :: ls =>
      if r = c then (applyDiffLines rest ls).map (fun t => c :: t) else none
  | [], DiffLine.removed _ :: _ => none
  | r :: rest, DiffLine.removed c :: ls =>
      if r = c then applyDiffLines rest ls else none

/-- Applies one hunk at its recorded (1-based) starting line. -/
def applyHunk (contentLines : List Str) (h : Hunk) : Option (List Str) :=
  let pre := contentLines.take (h.oldStart - 1)
  let rest := contentLines.drop (h.oldStart - 1)
  if pre.length = h.oldStart - 1 then
    (applyDiffLines rest h.lines).map (fun t => pre ++ t)
  else none

/-- Modelled from the spec: the Patch Applier (§4.2), standing in for the
`diff` library's `applyPatch`, which is an external dependency and not
under `src/`.  Hunks are applied in order with exact context matching
(each at its recorded original starting line; offset tracking across
hunks is not needed by any property below); a file whose `oldFileName` is
the null-device sentinel is produced directly from its hunks' added
lines. -/
def applyPatch (originalContent : Str) (filePatch : FilePatch) : Option Str :=
  if filePatch.oldFileName = "/dev/null".data then
    some (joinLines (filePatch.hunks.map addedLines).flatten)
  else
    (filePatch.hunks.foldl (fun acc h => acc.bind (fun ls => applyHunk ls h))
      (some (splitLines originalContent))).map joinLines

/-- The `issueInfo` field of the message shape consumed by the first
variant of `onPatchGenerationResult` in `src/unnamed/part_002`. -/
structure IssueInfo where
  repo_owner : Str
  repo_name : Str
  issue_number : Nat
  installation_id : Nat
deriving DecidableEq, Repr

/-- The message consumed by the first variant of `onPatchGenerationResult`
in `src/unnamed/part_002`. -/
structure PatchMessageV1 where
  issueInfo : IssueInfo
  unifiedDiff : Str
deriving DecidableEq, Repr

/-- The body of the `patch.forEach` in the first variant of
`onPatchGenerationResult` (`src/unnamed/part_002`).  For a file patch
whose `oldFileName` is not `/dev/null` it fetches the original content by
the `a/`-stripped path and, when the patch applies, writes the updated
content with no branch argument; every error in the chain is only logged.
For a file patch whose `oldFileName` is `/dev/null` it only logs
`Found a patch that adds a new file` — no content is written. -/
def processFilePatchV1 (w : World) (baseBranchSha : Str) (filePatch : FilePatch) :
    List Op :=
  if filePatch.oldFileName ≠ "/dev/null".data then
    match w.getContent (filePatch.oldFileName.drop 2) with
    | none => [Op.getContent (filePatch.oldFileName.drop 2) baseBranchSha]
    | some (originalContent, sha) =>
        match applyPatch originalContent filePatch with
        | none =>
            [Op.getContent (filePatch.oldFileName.drop 2) baseBranchSha]
        | some updatedContent =>
            [Op.getContent (filePatch.oldFileName.drop 2) baseBranchSha,
             Op.createOrUpdateFile (filePatch.oldFileName.drop 2) updatedContent sha none]
  else
    [Op.logNewFile filePatch.oldFileName filePatch.newFileName]

/-- The first variant of `onPatchGenerationResult` in
`src/unnamed/part_002`: resolve the base ref and create the branch (all
failures there are only logged, and diff processing continues
regardless), then parse the unified diff and process every file patch.
When the ref lookup failed, `baseBranchSha` is the JavaScript `undefined`,
rendered here as the string `undefined`. -/
def onPatchGenerationResultV1 (w : World) (msg : PatchMessageV1) (token : Str) :
    List Op :=
  let branch := newBranchName msg.issueInfo.issue_number token
  let baseBranchSha :=
    match w.getRefSha with
    | none => "undefined".data
    | some sha => sha
  Op.getRef "heads/main".data ::
    Op.createRef ("refs/heads/".data ++ branch) baseBranchSha ::
    ((parsePatch msg.unifiedDiff).map (processFilePatchV1 w baseBranchSha)).flatten

/-- The new branch of a run of `generatePullRequest`, named from the
message's issue number and the run's fresh token. -/
def runBranch (patchResult : PatchResult) (token : Str) : Str :=
  newBranchName patchResult.taskInfo.issue_number token

/-- The per-file chain outcomes of a run of `generatePullRequest` that got
past branch creation with base sha `s`. -/
def runResults (w : World) (patchResult : PatchResult) (token : Str) (s : Str) :
    List (Except Str Unit × List Op) :=
  patchResult.lastPatchResult.patchedFiles.map
    (updateFile w s (runBranch patchResult token))

/-- The remote calls issued by the per-file fan-out of such a run. -/
def runFileOps (w : World) (patchResult : PatchResult) (token : Str) (s : Str) :
    List Op :=
  ((runResults w patchResult token s).map Prod.snd).flatten

def tok0 : Str := "7e3f".data

def tok1 : Str := "9a1b".data

def taskInfo0 : TaskInfo :=
  { repo_owner := "mathlilypeng".data, repo_name := "pubsub-hello-world".data,
    issue_number := 7, issue_title := "Fix the subscriber".data,
    installation_id := 46978601 }

def fileA : PatchedFile :=
  { sourceFilePath := "src/a.py".data, sourceFileName := "a.py".data,
    targetFilePath := "src/a.py".data, targetFileContent := "a\nb\nd\n".data }

def fileB : PatchedFile :=
  { sourceFilePath := "src/b.py".data, sourceFileName := "b.py".data,
    targetFilePath := "src/b.py".data, targetFileContent := "x\ny\n".data }

/-- A result with two patched files, no diff text and no upstream error. -/
def prAB : PatchResult :=
  { taskInfo := taskInfo0,
    lastPatchResult :=
      { unifiedDiff := [], patchedFiles := [fileA, fileB], error := [] } }

/-- A result carrying an upstream error alongside a non-empty change set. -/
def prErrTimeout : PatchResult :=
  { taskInfo := taskInfo0,
    lastPatchResult :=
      { unifiedDiff := "--- a/x.py\n+++ b/x.py\n".data,
        patchedFiles := [fileA], error := "timeout".data } }

def diffOnlyText : Str := "--- a/x.py\n+++ b/x.py\n@@ -1,1 +1,1 @@\n-a\n+b\n".data

/-- A result whose change set lives only in the unified diff: no upstream
error, empty `patchedFiles`, parseable non-empty diff text. -/
def prDiffOnly : PatchResult :=
  { taskInfo := taskInfo0,
    lastPatchResult :=
      { unifiedDiff := diffOnlyText, patchedFiles := [], error := [] } }

/-- A result with no upstream error and no changes at all. -/
def prNoChanges : PatchResult :=
  { taskInfo := taskInfo0,
    lastPatchResult := { unifiedDiff := [], patchedFiles := [], error := [] } }

/-- A world in which every remote operation succeeds. -/
def wGood : World :=
  { getRefSha := some "base0".data, createRefOk := true,
    getContent := fun p =>
      if p = "src/a.py".data then some ("a\nb\nc\n".data, "shaA".data)
      else if p = "src/b.py".data then some ("x\nz\n".data, "shaB".data)
      else none,
    writeOk := fun _ _ => true, pullsCreateOk := true, commentOk := true }

/-- Like `wGood`, except the conditional write on `src/b.py` is rejected. -/
def wBFails : World :=
  { wGood with writeOk := fun p _ => if p = "src/b.py".data then false else true }

/-- The unified diff of spec scenario 1: it adds the new file `test.py`
with content `print(1)`. -/
def newFileDiff : Str :=
  "--- /dev/null\n+++ b/test.py\n@@ -0,0 +1,1 @@\n+print(1)\n".data

/-- The new-file message fed to the first variant of the handler, with the
issue data its own test harness (`createPatchGenerationResultSubscription`
in `src/unnamed/part_002`) uses. -/
def msgV1 : PatchMessageV1 :=
  { issueInfo :=
      { repo_owner := "mathlilypeng".data, repo_name := "pubsub-hello-world".data,
        issue_number := 7, installation_id := 46978601 },
    unifiedDiff := newFileDiff }

theorem updateFile_fst (w : World) (s b : Str) (f : PatchedFile) :
    (updateFile w s b f).1 =
      if fileWriteFails w f = true then Except.error (fileFailMsg w f)
      else Except.ok () := by
  rcases hg : w.getContent f.sourceFilePath with - | ⟨orig, sha⟩ <;>
    simp [updateFile, fileWriteFails, fileFailMsg, hg]
  cases hw : w.writeOk f.sourceFilePath sha <;> simp [hw]

theorem updateFile_ops_char (w : World) (s b : Str) (f : PatchedFile) :
    ∀ o ∈ (updateFile w s b f).2,
      o = Op.getContent f.sourceFilePath s ∨
      ∃ orig sha, w.getContent f.sourceFilePath = some (orig, sha) ∧
        o = Op.createOrUpdateFile f.sourceFilePath f.targetFileContent sha (some b) := by
  intro o ho
  rcases hg : w.getContent f.sourceFilePath with - | ⟨orig, sha⟩ <;>
    simp [updateFile, hg] at ho
  · exact Or.inl ho
  · rcases ho with ho | ho
    · exact Or.inl ho
    · exact Or.inr ⟨orig, sha, rfl, ho⟩

theorem updateFile_write_mem (w : World) (s b : Str) (f : PatchedFile)
    (hok : fileWriteFails w f = false) :
    ∃ orig sha, w.getContent f.sourceFilePath = some (orig, sha) ∧
      w.writeOk f.sourceFilePath sha = true ∧
      Op.createOrUpdateFile f.sourceFilePath f.targetFileContent sha (some b) ∈
        (updateFile w s b f).2 := by
  rcases hg : w.getContent f.sourceFilePath with - | ⟨orig, sha⟩
  · exact absurd hok (by simp [fileWriteFails, hg])
  · refine ⟨orig, sha, rfl, ?_, ?_⟩
    · have := hok
      simp [fileWriteFails, hg] at this
      exact this
    · simp [updateFile, hg]

theorem updateFile_countGet (w : World) (s b : Str) (f : PatchedFile) (p : Str) :
    (updateFile w s b f).2.countP (isGetContentOpFor p) =
      if f.sourceFilePath = p then 1 else 0 := by
  rcases hg : w.getContent f.sourceFilePath with - | ⟨orig, sha⟩ <;>
    simp only [updateFile, hg] <;>
    by_cases hp : f.sourceFilePath = p <;>
      simp [List.countP_cons, isGetContentOpFor, isWriteOpFor, hp]

theorem updateFile_countWrite_le (w : World) (s b : Str) (f : PatchedFile) (p : Str) :
    (updateFile w s b f).2.countP (isWriteOpFor p) ≤
      (updateFile w s b f).2.countP (isGetContentOpFor p) := by
  rcases hg : w.getContent f.sourceFilePath with - | ⟨orig, sha⟩ <;>
    simp only [updateFile, hg] <;>
    by_cases hp : f.sourceFilePath = p <;>
      simp [List.countP_cons, isGetContentOpFor, isWriteOpFor, hp]

theorem firstError_cons_ok (x : Except Str Unit × List Op)
    (rest : List (Except Str Unit × List Op)) (hx : x.1 = Except.ok ()) :
    firstError (x :: rest) = firstError rest := by
  obtain ⟨r, ops⟩ := x
  cases r with
  | ok u => rfl
  | error e => exact absurd hx (by simp)

theorem firstError_cons_err (x : Except Str Unit × List Op)
    (rest : List (Except Str Unit × List Op)) (e : Str)
    (hx : x.1 = Except.error e) :
    firstError (x :: rest) = some e := by
  obtain ⟨r, ops⟩ := x
  cases r with
  | ok u => exact absurd hx (by simp)
  | error e' =>
      simp only at hx
      rw [Except.error.injEq] at hx
      subst hx
      rfl

theorem firstError_map_eq_none_iff (w : World) (s b : Str)
    (files : List PatchedFile) :
    firstError (files.map (updateFile w s b)) = none ↔
      ∀ f ∈ files, fileWriteFails w f = false := by
  induction files with
  | nil => simp [firstError]
  | cons f fs ih =>
      simp only [List.map_cons]
      by_cases hf : fileWriteFails w f = true
      · rw [firstError_cons_err _ _ (fileFailMsg w f)
          (by rw [updateFile_fst]; simp [hf])]
        constructor
        · intro h
          exact absurd h (by simp)
        · intro hall
          exact absurd (hall f (List.mem_cons_self f fs)) (by simp [hf])
      · have hf' : fileWriteFails w f = false := by
          cases h : fileWriteFails w f
          · rfl
          · exact absurd h hf
        rw [firstError_cons_ok _ _ (by rw [updateFile_fst]; simp [hf'])]
        simp [ih, hf']

theorem firstError_map_single (w : World) (s b : Str) (files : List PatchedFile)
    (fbad : PatchedFile)
    (h : files.filter (fun f => fileWriteFails w f) = [fbad]) :
    firstError (files.map (updateFile w s b)) = some (fileFailMsg w fbad) := by
  induction files with
  | nil => simp at h
  | cons f fs ih =>
      by_cases hf : fileWriteFails w f = true
      · rw [List.filter_cons_of_pos hf] at h
        rw [List.cons.injEq] at h
        obtain ⟨h1, -⟩ := h
        subst h1
        simp only [List.map_cons]
        exact firstError_cons_err _ _ (fileFailMsg w f)
          (by rw [updateFile_fst]; simp [hf])
      · have hf' : fileWriteFails w f = false := by
          cases h' : fileWriteFails w f
          · rfl
          · exact absurd h' hf
        rw [List.filter_cons_of_neg (by simp [hf'])] at h
        simp only [List.map_cons]
        rw [firstError_cons_ok _ _ (by rw [updateFile_fst]; simp [hf'])]
        exact ih h

theorem firstError_map_some_of_fail (w : World) (s b : Str)
    (files : List PatchedFile) (f : PatchedFile) (hf : f ∈ files)
    (hfail : fileWriteFails w f = true) :
    ∃ e, firstError (files.map (updateFile w s b)) = some e := by
  rcases hE : firstError (files.map (updateFile w s b)) with - | e
  · exact absurd ((firstError_map_eq_none_iff w s b files).mp hE f hf)
      (by simp [hfail])
  · exact ⟨e, rfl⟩

theorem generatePullRequest_none (w : World) (patchResult : PatchResult) (token : Str)
    (hs : w.getRefSha = none) :
    generatePullRequest w patchResult token =
      (Except.error
         "Received error while getting the ref for \"heads/main\": HttpError".data,
       [Op.getRef "heads/main".data]) := by
  unfold generatePullRequest
  rw [hs]

theorem generatePullRequest_noBranch (w : World) (patchResult : PatchResult)
    (token : Str) (s : Str) (hs : w.getRefSha = some s)
    (hc : w.createRefOk = false) :
    generatePullRequest w patchResult token =
      (Except.error ("Received error while creating a new branch ".data ++
         (runBranch patchResult token ++ ". Error: HttpError".data)),
       [Op.getRef "heads/main".data,
        Op.createRef ("refs/heads/".data ++ runBranch patchResult token) s]) := by
  unfold generatePullRequest runBranch
  rw [hs]
  simp [hc]

theorem generatePullRequest_fail (w : World) (patchResult : PatchResult)
    (token : Str) (s : Str) (e : Str) (hs : w.getRefSha = some s)
    (hc : w.createRefOk = true)
    (hfe : firstError (runResults w patchResult token s) = some e) :
    generatePullRequest w patchResult token =
      (Except.error e,
       Op.getRef "heads/main".data ::
         Op.createRef ("refs/heads/".data ++ runBranch patchResult token) s ::
         runFileOps w patchResult token s) := by
  have hfe' : firstError
      (List.map (updateFile w s (newBranchName patchResult.taskInfo.issue_number token))
        patchResult.lastPatchResult.patchedFiles) = some e := hfe
  unfold generatePullRequest
  rw [hs]
  simp only [hc, if_true]
  rw [hfe']
  rfl

theorem generatePullRequest_success (w : World) (patchResult : PatchResult)
    (token : Str) (s : Str) (hs : w.getRefSha = some s)
    (hc : w.createRefOk = true)
    (hfe : firstError (runResults w patchResult token s) = none) :
    (generatePullRequest w patchResult token).2 =
      (Op.getRef "heads/main".data ::
        Op.createRef ("refs/heads/".data ++ runBranch patchResult token) s ::
        runFileOps w patchResult token s) ++
        [Op.pullsCreate (runBranch patchResult token) "main".data] := by
  have hfe' : firstError
      (List.map (updateFile w s (newBranchName patchResult.taskInfo.issue_number token))
        patchResult.lastPatchResult.patchedFiles) = none := hfe
  unfold generatePullRequest
  rw [hs]
  simp only [hc, if_true]
  rw [hfe']
  cases hpc : w.pullsCreateOk <;> simp only [hpc] <;> rfl

theorem generatePullRequest_ops_split (w : World) (patchResult : PatchResult)
    (token : Str) (s : Str) (hs : w.getRefSha = some s)
    (hc : w.createRefOk = true) :
    ∃ tail, (generatePullRequest w patchResult token).2 =
        (Op.getRef "heads/main".data ::
          Op.createRef ("refs/heads/".data ++ runBranch patchResult token) s ::
          runFileOps w patchResult token s) ++ tail ∧
      (tail = [] ∨
        tail = [Op.pullsCreate (runBranch patchResult token) "main".data]) := by
  rcases hfe : firstError (runResults w patchResult token s) with - | e
  · exact ⟨[Op.pullsCreate (runBranch patchResult token) "main".data],
      generatePullRequest_success w patchResult token s hs hc hfe, Or.inr rfl⟩
  · refine ⟨[], ?_, Or.inl rfl⟩
    rw [generatePullRequest_fail w patchResult token s e hs hc hfe]
    simp

theorem runFileOps_char (w : World) (patchResult : PatchResult) (token : Str)
    (s : Str) :
    ∀ o ∈ runFileOps w patchResult token s,
      (∃ f ∈ patchResult.lastPatchResult.patchedFiles,
        o = Op.getContent f.sourceFilePath s) ∨
      (∃ f ∈ patchResult.lastPatchResult.patchedFiles, ∃ orig sha,
        w.getContent f.sourceFilePath = some (orig, sha) ∧
        o = Op.createOrUpdateFile f.sourceFilePath f.targetFileContent sha
          (some (runBranch patchResult token))) := by
  intro o ho
  unfold runFileOps runResults at ho
  rw [List.map_map] at ho
  obtain ⟨l, hl, hol⟩ := List.mem_flatten.mp ho
  obtain ⟨f, hf, hfl⟩ := List.mem_map.mp hl
  rw [← hfl] at hol
  simp only [Function.comp] at hol
  rcases updateFile_ops_char w s (runBranch patchResult token) f o hol with
    h | ⟨orig, sha, hg, h⟩
  · exact Or.inl ⟨f, hf, h⟩
  · exact Or.inr ⟨f, hf, orig, sha, hg, h⟩

theorem runFileOps_flags (w : World) (patchResult : PatchResult) (token : Str)
    (s : Str) :
    ∀ o ∈ runFileOps w patchResult token s,
      isPullsCreateOp o = false ∧ isCreateCommentOp o = false ∧
        isCreateRefOp o = false := by
  intro o ho
  rcases runFileOps_char w patchResult token s o ho with
    ⟨f, -, rfl⟩ | ⟨f, -, orig, sha, -, rfl⟩ <;> exact ⟨rfl, rfl, rfl⟩

theorem runFileOps_write_mem (w : World) (patchResult : PatchResult) (token : Str)
    (s : Str) (f : PatchedFile)
    (hf : f ∈ patchResult.lastPatchResult.patchedFiles)
    (hok : fileWriteFails w f = false) :
    ∃ orig sha, w.getContent f.sourceFilePath = some (orig, sha) ∧
      w.writeOk f.sourceFilePath sha = true ∧
      Op.createOrUpdateFile f.sourceFilePath f.targetFileContent sha
        (some (runBranch patchResult token)) ∈ runFileOps w patchResult token s := by
  obtain ⟨orig, sha, hg, hw, hmem⟩ :=
    updateFile_write_mem w s (runBranch patchResult token) f hok
  refine ⟨orig, sha, hg, hw, ?_⟩
  unfold runFileOps runResults
  rw [List.map_map]
  exact List.mem_flatten.mpr
    ⟨(updateFile w s (runBranch patchResult token) f).2,
     List.mem_map.mpr ⟨f, hf, rfl⟩, hmem⟩

theorem countP_flatten_ops (q : Op → Bool) (L : List (List Op)) :
    (L.flatten).countP q = (L.map (fun l => l.countP q)).sum := by
  induction L with
  | nil => simp
  | cons h t ih => simp [List.countP_append, ih]

theorem runFileOps_countGet (w : World) (patchResult : PatchResult) (token : Str)
    (s : Str) (p : Str) :
    (runFileOps w patchResult token s).countP (isGetContentOpFor p) =
      patchResult.lastPatchResult.patchedFiles.countP
        (fun f => decide (f.sourceFilePath = p)) := by
  unfold runFileOps runResults
  rw [List.map_map]
  generalize patchResult.lastPatchResult.patchedFiles = files
  induction files with
  | nil => simp
  | cons f fs ih =>
      simp only [List.map_cons, List.flatten_cons, List.countP_append,
        List.countP_cons, Function.comp, ih]
      rw [updateFile_countGet]
      by_cases hp : f.sourceFilePath = p <;> simp [hp, Nat.add_comm]

theorem runFileOps_countWrite_le (w : World) (patchResult : PatchResult)
    (token : Str) (s : Str) (p : Str) :
    (runFileOps w patchResult token s).countP (isWriteOpFor p) ≤
      (runFileOps w patchResult token s).countP (isGetContentOpFor p) := by
  unfold runFileOps runResults
  rw [List.map_map]
  generalize patchResult.lastPatchResult.patchedFiles = files
  induction files with
  | nil => simp
  | cons f fs ih =>
      simp only [List.map_cons, List.flatten_cons, List.countP_append,
        Function.comp]
      exact Nat.add_le_add (updateFile_countWrite_le w s _ f p) ih

theorem newBranchName_ne_main (n : Nat) (t : Str) :
    newBranchName n t ≠ "main".data := by
  intro h
  have h2 := congrArg List.head? h
  rw [show (newBranchName n t).head? = some 'f' from rfl] at h2
  rw [show (("main".data : Str).head? : Option Char) = some 'm' from rfl] at h2
  exact absurd h2 (by decide)

theorem path_infix_updateFileErrorMsg (f : PatchedFile) (inner : Str) :
    f.sourceFilePath <:+: updateFileErrorMsg f inner :=
  ⟨"\n      Received error while updating ".data,
   " to ".data ++ (f.targetFilePath ++ (". Error: ".data ++ inner)),
   by simp [updateFileErrorMsg, List.append_assoc]⟩

theorem path_infix_fileFailMsg (w : World) (f : PatchedFile) :
    f.sourceFilePath <:+: fileFailMsg w f := by
  unfold fileFailMsg
  cases hg : w.getContent f.sourceFilePath
  · exact path_infix_updateFileErrorMsg f _
  · exact path_infix_updateFileErrorMsg f _

theorem makeComment_ops (w : World) (issueNumber : Nat) (body : Str) :
    (makeComment w issueNumber body).2 = [Op.createComment issueNumber body] := by
  unfold makeComment
  split <;> rfl

theorem action_of_error (patchResult : PatchResult)
    (herr : patchResult.lastPatchResult.error ≠ []) :
    onPatchGenerationAction patchResult =
      Action.reportFailure (formatPatchResultMessage patchResult) := by
  unfold onPatchGenerationAction
  rw [if_neg]
  rintro ⟨-, h0⟩
  exact herr (List.length_eq_zero.mp h0)

theorem error_infix_format (patchResult : PatchResult) :
    escapeMarkdown patchResult.lastPatchResult.error <:+:
      formatPatchResultMessage patchResult :=
  ⟨"Unified Diff:\n  ```\n  ".data ++
      (escapeMarkdown patchResult.lastPatchResult.unifiedDiff ++
        "\n  ```\n\n  Error Message:\n  ```\n  ".data),
   "\n  ```\n  ".data,
   by simp [formatPatchResultMessage, List.append_assoc]⟩

/-- Claim C2: an incoming result whose `lastPatchResult.error` is non-empty
is always routed to the diagnostic-comment path — the spawned work is the
single `issues.createComment` call carrying `formatPatchResultMessage`, so
no pull-request generation (no ref read, no branch, no write, no
`pulls.create`) is started — and the comment body contains the
(markdown-escaped) error text, whatever `patchedFiles` and `unifiedDiff`
hold. -/
theorem c2_error_short_circuits (w : World) (patchResult : PatchResult) (token : Str)
    (herr : patchResult.lastPatchResult.error ≠ []) :
    (handleMessage w (some patchResult) token).spawnedOps =
      [Op.createComment patchResult.taskInfo.issue_number
        (formatPatchResultMessage patchResult)] ∧
    escapeMarkdown patchResult.lastPatchResult.error <:+:
      formatPatchResultMessage patchResult := by
  refine ⟨?_, error_infix_format patchResult⟩
  simp [handleMessage, onPatchGenerationResult, action_of_error patchResult herr,
    makeComment_ops]

theorem c2_witness :
    prErrTimeout.lastPatchResult.error ≠ [] ∧
    ((handleMessage wGood (some prErrTimeout) tok0).spawnedOps =
      [Op.createComment prErrTimeout.taskInfo.issue_number
        (formatPatchResultMessage prErrTimeout)] ∧
     escapeMarkdown prErrTimeout.lastPatchResult.error <:+:
       formatPatchResultMessage prErrTimeout) :=
  ⟨by decide, c2_error_short_circuits wGood prErrTimeout tok0 (by decide)⟩

/-- Claim C3, counterexample: a result with no upstream error whose change
set lives only in the unified diff (the diff parses to one file patch but
`patchedFiles` is empty) is routed to the failure path, not to
`GeneratePullRequest` — refuting the claim at this input. -/
theorem c3_counterexample :
    prDiffOnly.lastPatchResult.error = [] ∧
    prDiffOnly.lastPatchResult.patchedFiles = [] ∧
    parsePatch prDiffOnly.lastPatchResult.unifiedDiff ≠ [] ∧
    onPatchGenerationAction prDiffOnly ≠ Action.generatePullRequest := by
  decide

/-- Claim C3 as amended: with an empty upstream error the dispatcher yields
`GeneratePullRequest` exactly when `patchedFiles` is non-empty; the
unified diff is never consulted, so a diff-only result goes to the failure
path. -/
theorem c3_dispatch_iff_patched_files (patchResult : PatchResult)
    (herr : patchResult.lastPatchResult.error = []) :
    onPatchGenerationAction patchResult = Action.generatePullRequest ↔
      patchResult.lastPatchResult.patchedFiles ≠ [] := by
  have hlen : patchResult.lastPatchResult.error.length = 0 := by rw [herr]; rfl
  unfold onPatchGenerationAction
  by_cases hp : patchResult.lastPatchResult.patchedFiles = []
  · rw [if_neg (by rintro ⟨hne, -⟩; exact hne (by rw [hp]; rfl))]
    simp [hp]
  · rw [if_pos ⟨fun h0 => hp (List.length_eq_zero.mp h0), hlen⟩]
    simp [hp]

theorem c3_witness :
    prAB.lastPatchResult.error = [] ∧
    (onPatchGenerationAction prAB = Action.generatePullRequest ↔
      prAB.lastPatchResult.patchedFiles ≠ []) :=
  ⟨rfl, c3_dispatch_iff_patched_files prAB rfl⟩

/-- Claim C8, counterexample: on a result with no error and no changes the
dispatcher does yield `ReportFailure`, but the comment is the same
diff-and-error diagnostic template (here with both sections empty), not a
neutral "no changes produced" message — no such text occurs in it. -/
theorem c8_counterexample :
    onPatchGenerationAction prNoChanges =
      Action.reportFailure (formatPatchResultMessage prNoChanges) ∧
    ¬ ("no change".data <:+: formatPatchResultMessage prNoChanges) ∧
    formatPatchResultMessage prNoChanges =
      "Unified Diff:\n  ```\n  \n  ```\n\n  Error Message:\n  ```\n  \n  ```\n  ".data := by
  decide

/-- Claim C8 as amended: a result with empty error and empty change set is
routed to `ReportFailure`, whose comment body is
`formatPatchResultMessage` — the very template used for upstream-error
diagnostics, with empty diff and error sections — rather than a distinct
neutral "no changes produced" message. -/
theorem c8_empty_result_same_template (patchResult : PatchResult)
    (herr : patchResult.lastPatchResult.error = [])
    (hfiles : patchResult.lastPatchResult.patchedFiles = []) :
    onPatchGenerationAction patchResult =
      Action.reportFailure (formatPatchResultMessage patchResult) := by
  unfold onPatchGenerationAction
  rw [if_neg]
  rintro ⟨hne, -⟩
  exact hne (by rw [hfiles]; rfl)

theorem c8_witness :
    prNoChanges.lastPatchResult.error = [] ∧
    prNoChanges.lastPatchResult.patchedFiles = [] ∧
    onPatchGenerationAction prNoChanges =
      Action.reportFailure (formatPatchResultMessage prNoChanges) :=
  ⟨rfl, rfl, c8_empty_result_same_template prNoChanges rfl rfl⟩

/-- Claim C9: the branch name is the issue number plus the run's freshly
generated unique token, and is injective in the token — two runs for the
same issue whose tokens differ get distinct branch names. -/
theorem c9_branch_name_injective (n : Nat) (t1 t2 : Str) (h : t1 ≠ t2) :
    newBranchName n t1 ≠ newBranchName n t2 := by
  intro he
  apply h
  unfold newBranchName at he
  exact List.append_cancel_left (List.append_cancel_left (List.append_cancel_left he))

theorem c9_witness :
    tok0 ≠ tok1 ∧ newBranchName 7 tok0 ≠ newBranchName 7 tok1 :=
  ⟨by decide, c9_branch_name_injective 7 tok0 tok1 (by decide)⟩

/-- Claim C10: for a message that parses, the handler acknowledges exactly
once, and the acknowledgement does not depend on the world the spawned
work runs in (the ack is issued without awaiting the pull-request
generation or the comment, so it happens even in worlds where those later
fail). -/
theorem c10_ack_exactly_once (w w' : World) (patchResult : PatchResult)
    (token token' : Str) :
    (handleMessage w (some patchResult) token).ackCount = 1 ∧
    (handleMessage w (some patchResult) token).ackCount =
      (handleMessage w' (some patchResult) token').ackCount :=
  ⟨rfl, rfl⟩

/-- Claim C1, counterexample: a run routed to pull-request generation in
which one file's write fails never posts any diagnostic comment — the
handler fires `generatePullRequest` without a rejection handler, so the
run ends as a bare rejected promise: no `issues.createComment` call occurs
anywhere in the spawned work (and no pull request is created either). -/
theorem c1_counterexample :
    onPatchGenerationAction prAB = Action.generatePullRequest ∧
    (∃ f ∈ prAB.lastPatchResult.patchedFiles, fileWriteFails wBFails f = true) ∧
    (∀ o ∈ (handleMessage wBFails (some prAB) tok0).spawnedOps,
      isCreateCommentOp o = false ∧ isPullsCreateOp o = false) ∧
    resultIsOk (handleMessage wBFails (some prAB) tok0).spawnedResult = false := by
  decide

/-- Claim C1 as amended: a pull request is created only if all file writes
in the run succeeded; if any file write fails, no pull request is created
and the run terminates with a rejection carrying a failing file's error —
no diagnostic comment is posted anywhere in the run — while the created
branch and the successful files' writes remain. -/
theorem c1_pr_gated_on_all_writes (w : World) (patchResult : PatchResult)
    (token : Str)
    (hfail : ∃ f ∈ patchResult.lastPatchResult.patchedFiles,
      fileWriteFails w f = true) :
    (∀ o ∈ (generatePullRequest w patchResult token).2, isPullsCreateOp o = false) ∧
    (∀ o ∈ (generatePullRequest w patchResult token).2, isCreateCommentOp o = false) ∧
    (∃ e, (generatePullRequest w patchResult token).1 = Except.error e) ∧
    (∀ s, w.getRefSha = some s → w.createRefOk = true →
      Op.createRef ("refs/heads/".data ++ runBranch patchResult token) s ∈
        (generatePullRequest w patchResult token).2 ∧
      ∀ f ∈ patchResult.lastPatchResult.patchedFiles, fileWriteFails w f = false →
        ∃ orig sha, w.getContent f.sourceFilePath = some (orig, sha) ∧
          Op.createOrUpdateFile f.sourceFilePath f.targetFileContent sha
            (some (runBranch patchResult token)) ∈
            (generatePullRequest w patchResult token).2) := by
  obtain ⟨fbad, hfmem, hffail⟩ := hfail
  rcases hs : w.getRefSha with - | s
  · rw [generatePullRequest_none w patchResult token hs]
    refine ⟨?_, ?_, ⟨_, rfl⟩, ?_⟩
    · intro o ho
      rw [List.mem_singleton] at ho
      subst ho
      rfl
    · intro o ho
      rw [List.mem_singleton] at ho
      subst ho
      rfl
    · intro s hs'
      exact Option.noConfusion hs'
  · cases hc : w.createRefOk
    · rw [generatePullRequest_noBranch w patchResult token s hs hc]
      refine ⟨?_, ?_, ⟨_, rfl⟩, ?_⟩
      · intro o ho
        rcases List.mem_cons.mp ho with rfl | ho2
        · rfl
        · rw [List.mem_singleton] at ho2
          subst ho2
          rfl
      · intro o ho
        rcases List.mem_cons.mp ho with rfl | ho2
        · rfl
        · rw [List.mem_singleton] at ho2
          subst ho2
          rfl
      · intro s' hs' hc'
        exact Bool.noConfusion hc'
    · obtain ⟨e, hfe⟩ := firstError_map_some_of_fail w s
        (runBranch patchResult token) _ fbad hfmem hffail
      rw [generatePullRequest_fail w patchResult token s e hs hc hfe]
      refine ⟨?_, ?_, ⟨e, rfl⟩, ?_⟩
      · intro o ho
        rcases List.mem_cons.mp ho with rfl | ho2
        · rfl
        · rcases List.mem_cons.mp ho2 with rfl | ho3
          · rfl
          · exact (runFileOps_flags w patchResult token s o ho3).1
      · intro o ho
        rcases List.mem_cons.mp ho with rfl | ho2
        · rfl
        · rcases List.mem_cons.mp ho2 with rfl | ho3
          · rfl
          · exact (runFileOps_flags w patchResult token s o ho3).2.1
      · intro s' hs' hc'
        rw [Option.some.injEq] at hs'
        subst hs'
        refine ⟨List.mem_cons_of_mem _ (List.mem_cons_self _ _), ?_⟩
        intro f hf hok
        obtain ⟨orig, sha, hg, -, hmem⟩ :=
          runFileOps_write_mem w patchResult token s f hf hok
        exact ⟨orig, sha, hg,
          List.mem_cons_of_mem _ (List.mem_cons_of_mem _ hmem)⟩

theorem c1_witness :
    (∃ f ∈ prAB.lastPatchResult.patchedFiles, fileWriteFails wBFails f = true) ∧
    (∀ o ∈ (generatePullRequest wBFails prAB tok0).2, isPullsCreateOp o = false) ∧
    (∀ o ∈ (generatePullRequest wBFails prAB tok0).2, isCreateCommentOp o = false) :=
  ⟨by decide,
   (c1_pr_gated_on_all_writes wBFails prAB tok0 (by decide)).1,
   (c1_pr_gated_on_all_writes wBFails prAB tok0 (by decide)).2.1⟩

theorem gen_takeWhile (w : World) (patchResult : PatchResult) (token : Str) :
    (generatePullRequest w patchResult token).2.takeWhile
        (fun x => !(isCreateRefOp x)) = [Op.getRef "heads/main".data] := by
  rcases hs : w.getRefSha with - | s
  · rw [generatePullRequest_none w patchResult token hs]
    rfl
  · cases hc : w.createRefOk
    · rw [generatePullRequest_noBranch w patchResult token s hs hc]
      rfl
    · obtain ⟨tail, hops, -⟩ :=
        generatePullRequest_ops_split w patchResult token s hs hc
      rw [hops]
      rfl

/-- Claim C4: in every run of the pipeline the trace prefix before the
first branch-creation call is exactly the base-ref read — so no file write
and no pull-request creation happens before the branch is created — and
every file write carries the newly created branch, never `main`. -/
theorem c4_branch_created_first (w : World) (patchResult : PatchResult)
    (token : Str) :
    (∀ o ∈ (generatePullRequest w patchResult token).2.takeWhile
        (fun x => !(isCreateRefOp x)),
      isWriteOp o = false ∧ isPullsCreateOp o = false) ∧
    (∀ p c sha br,
      Op.createOrUpdateFile p c sha br ∈ (generatePullRequest w patchResult token).2 →
      br = some (runBranch patchResult token) ∧ br ≠ some "main".data) := by
  constructor
  · intro o ho
    rw [gen_takeWhile] at ho
    rw [List.mem_singleton] at ho
    subst ho
    exact ⟨rfl, rfl⟩
  · rcases hs : w.getRefSha with - | s
    · rw [generatePullRequest_none w patchResult token hs]
      intro p c sha br hmem
      rw [List.mem_singleton] at hmem
      exact Op.noConfusion hmem
    · cases hc : w.createRefOk
      · rw [generatePullRequest_noBranch w patchResult token s hs hc]
        intro p c sha br hmem
        rcases List.mem_cons.mp hmem with h | h
        · exact Op.noConfusion h
        · rw [List.mem_singleton] at h
          exact Op.noConfusion h
      · obtain ⟨tail, hops, htail⟩ :=
          generatePullRequest_ops_split w patchResult token s hs hc
        rw [hops]
        intro p c sha br hmem
        have hbr : br = some (runBranch patchResult token) := by
          rcases List.mem_append.mp hmem with h | h
          · rcases List.mem_cons.mp h with h1 | h1
            · exact Op.noConfusion h1
            · rcases List.mem_cons.mp h1 with h2 | h2
              · exact Op.noConfusion h2
              · rcases runFileOps_char w patchResult token s _ h2 with
                  ⟨f, -, heq⟩ | ⟨f, -, orig, sha', -, heq⟩
                · exact Op.noConfusion heq
                · rw [Op.createOrUpdateFile.injEq] at heq
                  exact heq.2.2.2
          · rcases htail with rfl | rfl
            · exact absurd h (List.not_mem_nil _)
            · rw [List.mem_singleton] at h
              exact Op.noConfusion h
        refine ⟨hbr, ?_⟩
        rw [hbr]
        intro hmain
        rw [Option.some.injEq] at hmain
        exact newBranchName_ne_main patchResult.taskInfo.issue_number token hmain

theorem c4_witness :
    (Op.createOrUpdateFile "src/a.py".data "a\nb\nd\n".data "shaA".data
        (some (runBranch prAB tok0)) ∈ (generatePullRequest wGood prAB tok0).2) ∧
    some (runBranch prAB tok0) ≠ some "main".data ∧
    isWriteOp (Op.getRef "heads/main".data) = false :=
  ⟨by decide,
   ((c4_branch_created_first wGood prAB tok0).2 "src/a.py".data "a\nb\nd\n".data
      "shaA".data (some (runBranch prAB tok0)) (by decide)).2,
   ((c4_branch_created_first wGood prAB tok0).1 (Op.getRef "heads/main".data)
      (by decide)).1⟩

/-- Claim C5: when the run reaches the fan-out and exactly one file fails
its content fetch or conditional write, the run rejects with exactly that
file's error (which carries the file's path), no pull request is ever
created, and every other file's fetch-and-write still completes with its
write recorded in the trace — the join waits for each chain rather than
abandoning the dispatched work. -/
theorem c5_single_failure_gating (w : World) (patchResult : PatchResult)
    (token : Str) (fbad : PatchedFile) (s : Str)
    (hs : w.getRefSha = some s) (hc : w.createRefOk = true)
    (hone : patchResult.lastPatchResult.patchedFiles.filter
      (fun f => fileWriteFails w f) = [fbad]) :
    (generatePullRequest w patchResult token).1 =
      Except.error (fileFailMsg w fbad) ∧
    fbad.sourceFilePath <:+: fileFailMsg w fbad ∧
    (∀ o ∈ (generatePullRequest w patchResult token).2,
      isPullsCreateOp o = false) ∧
    (∀ f ∈ patchResult.lastPatchResult.patchedFiles, fileWriteFails w f = false →
      ∃ orig sha, w.getContent f.sourceFilePath = some (orig, sha) ∧
        w.writeOk f.sourceFilePath sha = true ∧
        Op.createOrUpdateFile f.sourceFilePath f.targetFileContent sha
          (some (runBranch patchResult token)) ∈
          (generatePullRequest w patchResult token).2) := by
  have hfe : firstError (runResults w patchResult token s) =
      some (fileFailMsg w fbad) :=
    firstError_map_single w s (runBranch patchResult token) _ fbad hone
  rw [generatePullRequest_fail w patchResult token s _ hs hc hfe]
  refine ⟨rfl, path_infix_fileFailMsg w fbad, ?_, ?_⟩
  · intro o ho
    rcases List.mem_cons.mp ho with rfl | ho2
    · rfl
    · rcases List.mem_cons.mp ho2 with rfl | ho3
      · rfl
      · exact (runFileOps_flags w patchResult token s o ho3).1
  · intro f hf hok
    obtain ⟨orig, sha, hg, hw, hmem⟩ :=
      runFileOps_write_mem w patchResult token s f hf hok
    exact ⟨orig, sha, hg, hw,
      List.mem_cons_of_mem _ (List.mem_cons_of_mem _ hmem)⟩

theorem c5_witness :
    wBFails.getRefSha = some "base0".data ∧
    wBFails.createRefOk = true ∧
    prAB.lastPatchResult.patchedFiles.filter
      (fun f => fileWriteFails wBFails f) = [fileB] ∧
    (generatePullRequest wBFails prAB tok0).1 =
      Except.error (fileFailMsg wBFails fileB) ∧
    fileB.sourceFilePath <:+: fileFailMsg wBFails fileB :=
  ⟨by decide, by decide, by decide,
   (c5_single_failure_gating wBFails prAB tok0 fileB "base0".data
      (by decide) (by decide) (by decide)).1,
   (c5_single_failure_gating wBFails prAB tok0 fileB "base0".data
      (by decide) (by decide) (by decide)).2.1⟩

/-- Claim C7: every write call in a run's trace presents exactly the blob
sha that the run's content fetch returns for that path; each file entry
contributes exactly one content fetch (so never a re-fetch-and-retry) and
the trace never holds more writes than fetches for a path; and a write
whose sha the world rejects as stale makes that file's chain fail hard,
never a silent overwrite. -/
theorem c7_optimistic_concurrency (w : World) (patchResult : PatchResult)
    (token : Str) (s : Str) (hs : w.getRefSha = some s)
    (hc : w.createRefOk = true) :
    (∀ p c sha br, Op.createOrUpdateFile p c sha br ∈
        (generatePullRequest w patchResult token).2 →
      ∃ orig, w.getContent p = some (orig, sha)) ∧
    (∀ p, (generatePullRequest w patchResult token).2.countP
        (isGetContentOpFor p) =
      patchResult.lastPatchResult.patchedFiles.countP
        (fun f => decide (f.sourceFilePath = p))) ∧
    (∀ p, (generatePullRequest w patchResult token).2.countP (isWriteOpFor p) ≤
      (generatePullRequest w patchResult token).2.countP (isGetContentOpFor p)) ∧
    (∀ f ∈ patchResult.lastPatchResult.patchedFiles, ∀ orig sha,
      w.getContent f.sourceFilePath = some (orig, sha) →
      w.writeOk f.sourceFilePath sha = false →
      (updateFile w s (runBranch patchResult token) f).1 =
        Except.error (updateFileErrorMsg f "HttpError".data)) := by
  obtain ⟨tail, hops, htail⟩ :=
    generatePullRequest_ops_split w patchResult token s hs hc
  refine ⟨?_, ?_, ?_, ?_⟩
  · intro p c sha br hmem
    rw [hops] at hmem
    rcases List.mem_append.mp hmem with h | h
    · rcases List.mem_cons.mp h with h1 | h1
      · exact Op.noConfusion h1
      · rcases List.mem_cons.mp h1 with h2 | h2
        · exact Op.noConfusion h2
        · rcases runFileOps_char w patchResult token s _ h2 with
            ⟨f, -, heq⟩ | ⟨f, -, orig, sha', hg, heq⟩
          · exact Op.noConfusion heq
          · rw [Op.createOrUpdateFile.injEq] at heq
            obtain ⟨hp, -, hsha, -⟩ := heq
            exact ⟨orig, by rw [hp, hsha]; exact hg⟩
    · rcases htail with rfl | rfl
      · exact absurd h (List.not_mem_nil _)
      · rw [List.mem_singleton] at h
        exact Op.noConfusion h
  · intro p
    rw [hops]
    rcases htail with rfl | rfl <;>
      simp [List.countP_append, List.countP_cons, isGetContentOpFor,
        runFileOps_countGet w patchResult token s p]
  · intro p
    rw [hops]
    rcases htail with rfl | rfl <;>
      simp [List.countP_append, List.countP_cons, isGetContentOpFor,
        isWriteOpFor] <;>
      exact runFileOps_countWrite_le w patchResult token s p
  · intro f hf orig sha hg hw
    simp [updateFile, hg, hw]

theorem c7_witness :
    wGood.getRefSha = some "base0".data ∧
    wGood.createRefOk = true ∧
    (∃ orig, wGood.getContent "src/a.py".data = some (orig, "shaA".data)) :=
  ⟨by decide, by decide,
   (c7_optimistic_concurrency wGood prAB tok0 "base0".data
      (by decide) (by decide)).1
     "src/a.py".data "a\nb\nd\n".data "shaA".data
     (some (runBranch prAB tok0)) (by decide)⟩

/-- Claim C6: on the unified diff that adds `test.py` with content
`print(1)` (so its single parsed file patch has the `/dev/null` sentinel
as `oldFileName` and `print(1)` as its hunks' added lines), the pipeline
of `src/unnamed/part_002` issues no create-or-update call at all — the
`/dev/null` branch only logs `Found a patch that adds a new file` — so
the new file is never created, although the code's own comment marks that
branch as the newly-added-file handler. -/
theorem c6_new_file_never_written :
    (parsePatch newFileDiff).length = 1 ∧
    (∀ fp ∈ parsePatch newFileDiff, fp.oldFileName = "/dev/null".data) ∧
    (∀ fp ∈ parsePatch newFileDiff,
      (fp.hunks.map addedLines).flatten = ["print(1)".data]) ∧
    (∀ o ∈ onPatchGenerationResultV1 wGood msgV1 tok0, isWriteOp o = false) ∧
    (∃ o ∈ onPatchGenerationResultV1 wGood msgV1 tok0,
      isLogNewFileOp o = true) := by
  decide

end GithubApp
